import Mathlib

/-!
Verification development for the Harness veterinary-corpus acquisition and
structuring pipeline.  The Lean definitions below are shallow embeddings of the
Python functions in `data-pipeline` and `backend/services/admin.py`; bytes are
modelled as `List Nat`, HTTP traffic and external libraries (requests, GROBID,
pdfplumber, PyPDF2, the XML parser) as explicit oracle parameters, and the
object store as an association list from keys to byte sequences.
-/

set_option autoImplicit false

namespace Harness

/-! ## String helpers

Python string primitives re-implemented on `List Char` so that every operation
is kernel-reducible.  `findSub pat l` is `l.find(pat)`: the least index at
which `pat` occurs as a contiguous sublist of `l`, or `none`.
-/

def findSub (pat : List Char) : List Char → Option Nat
  | [] => if pat.isPrefixOf ([] : List Char) then some 0 else none
  | c :: rest =>
    if pat.isPrefixOf (c :: rest) then some 0
    else (findSub pat rest).map (· + 1)

/-- Python `s.find(pat, start)`: least index `≥ start` where `pat` occurs. -/
def findSubFrom (pat l : List Char) (start : Nat) : Option Nat :=
  (findSub pat (l.drop start)).map (· + start)

/-- Character list of Python `s.lower()`. -/
def lowerChars (s : String) : List Char :=
  s.data.map Char.toLower

/-- Python `pat in s.lower()` for an (already lower-case) literal `pat`. -/
def containsLower (s : String) (pat : String) : Bool :=
  (findSub pat.data (lowerChars s)).isSome

/-- Python `s.endswith(suf)`. -/
def strEndsWith (s suf : String) : Bool :=
  suf.data.isSuffixOf s.data

/-- Python `s.startswith(pre)`. -/
def strStartsWith (s pre : String) : Bool :=
  pre.data.isPrefixOf s.data

/-- Python `s[:n]`. -/
def strTake (s : String) (n : Nat) : String :=
  (s.data.take n).asString

/-- Python `s.strip()`. -/
def strip (s : String) : String :=
  (((s.data.dropWhile Char.isWhitespace).reverse.dropWhile Char.isWhitespace).reverse).asString

/-- Python `s.split(c)` for a one-character separator. -/
def splitAux (c : Char) : List Char → List Char → List (List Char)
  | [], acc => [acc.reverse]
  | x :: rest, acc =>
    if x == c then acc.reverse :: splitAux c rest []
    else splitAux c rest (x :: acc)

def splitOnChar (s : String) (c : Char) : List String :=
  (splitAux c s.data []).map List.asString

/-- Python `s.split('/')[-1]` (split never yields an empty list). -/
def lastSegment (s : String) : String :=
  (splitOnChar s '/').getLastD ""

/-! ## HTTP and object-store model -/

/-- The observable outcome of one `requests.get`: HTTP status code, declared
`content-type` header, body bytes, and whether the call raised an exception
(connection error, timeout, ...). -/
structure HttpResponse where
  status : Nat
  contentType : String
  content : List Nat
  raised : Bool
deriving DecidableEq

/-- The S3 bucket contents: association list from object key to bytes. -/
abbrev Store := List (String × List Nat)

def storeHasKey (st : Store) (k : String) : Bool :=
  (st.lookup k).isSome

/-- Model of `S3Hook.load_bytes(..., replace=False)`: raises (here: `none`) when the key
already exists, otherwise writes the object. -/
def load_bytes_noreplace (st : Store) (k : String) (content : List Nat) : Option Store :=
  if storeHasKey st k then none else some ((k, content) :: st)

/-! ## `download_pdf` — grobid_processor/package/main.py, lines 327-353

Tries each candidate URL in order; succeeds on the first response with HTTP
status 200 whose `content-type` header contains `"pdf"` (case-insensitively);
an exception or a non-matching response moves on to the next URL; returns
`None` when every URL has been tried. -/

/-- Does the response for `url` satisfy
`response.status_code == 200 and 'pdf' in content_type.lower()`? -/
def isPdfHit (http : String → HttpResponse) (url : String) : Bool :=
  let r := http url
  !r.raised && r.status == 200 && containsLower r.contentType "pdf"

def download_pdf (http : String → HttpResponse) : List String → Option (List Nat)
  | [] => none
  | url :: rest =>
    let r := http url
    if r.raised then download_pdf http rest
    else if r.status == 200 && containsLower r.contentType "pdf" then some r.content
    else download_pdf http rest

/-! ## `extract_text_from_pdf` — grobid_processor/package/main.py, lines 356-476

The local multi-strategy extraction: pdfplumber (page-aware section
heuristics), then PyPDF2 (whole-document text with a single abstract
heuristic), then a minimal "fallback" record.  `use_pdfplumber` /
`use_pypdf2` are the import-availability flags; the per-library parse oracles
give the per-page `extract_text()` results (`none` for the whole document when
`pdfplumber.open` / `PyPDF2.PdfReader` raises; `none` for one page when its
extraction raises or returns `None`). -/

structure PlumberSections where
  abstract : String
  introduction : String
  methods : String
  results : String
  discussion : String
  conclusion : String
  references : String
deriving DecidableEq

def emptySections : PlumberSections :=
  ⟨"", "", "", "", "", "", ""⟩

/-- Python `page_text[:500]`. -/
def take500 (s : String) : String :=
  (s.data.take 500).asString

/-- The `elif` chain of section-header heuristics applied to one page of text
(lines 401-415 of package/main.py).  Each page feeds at most one section: the
first branch whose keyword matches and whose section is still empty. -/
def updateSections (s : PlumberSections) (pageText : String) : PlumberSections :=
  if containsLower pageText "abstract" && s.abstract == "" then
    { s with abstract := take500 pageText }
  else if (containsLower pageText "introduction" || containsLower pageText "background")
      && s.introduction == "" then
    { s with introduction := take500 pageText }
  else if (containsLower pageText "method" || containsLower pageText "material")
      && s.methods == "" then
    { s with methods := take500 pageText }
  else if containsLower pageText "result" && s.results == "" then
    { s with results := take500 pageText }
  else if containsLower pageText "discussion" && s.discussion == "" then
    { s with discussion := take500 pageText }
  else if containsLower pageText "conclusion" && s.conclusion == "" then
    { s with conclusion := take500 pageText }
  else if containsLower pageText "reference" && s.references == "" then
    { s with references := take500 pageText }
  else s

/-- One iteration of the pdfplumber page loop: skip falsy pages (`None` or
`""`), otherwise append to `full_text` and run the section heuristics. -/
def plumberStep (acc : String × PlumberSections) (p : Option String) : String × PlumberSections :=
  match p with
  | none => acc
  | some t => if t == "" then acc else (acc.1 ++ t ++ "\n", updateSections acc.2 t)

def plumberFold (pages : List (Option String)) : String × PlumberSections :=
  pages.foldl plumberStep ("", emptySections)

/-- The pages that pass Python's `if page_text:` truthiness test. -/
def truthyPages (pages : List (Option String)) : List String :=
  pages.filterMap (fun p =>
    match p with
    | none => none
    | some t => if t == "" then none else some t)

def sectionsToList (s : PlumberSections) : List (String × String) :=
  [("abstract", s.abstract), ("introduction", s.introduction), ("methods", s.methods),
   ("results", s.results), ("discussion", s.discussion), ("conclusion", s.conclusion),
   ("references", s.references)]

/-- The result dictionary of `extract_text_from_pdf`; `sections` is the Python
dict in insertion order.  Keys absent from a given method's dict are `none`. -/
structure ExtractResult where
  full_text : String
  sections : List (String × String)
  extraction_method : String
  page_count : Option Nat
  pdf_size : Option Nat
deriving DecidableEq

def plumberResult (pages : List (Option String)) : ExtractResult :=
  let r := plumberFold pages
  { full_text := strip r.1
    sections := sectionsToList r.2
    extraction_method := "pdfplumber"
    page_count := some pages.length
    pdf_size := none }

/-- Method 3 (lines 466-472): the minimal record emitted when no extraction
library produced text. -/
def fallbackResult (n : Nat) : ExtractResult :=
  { full_text := "PDF file (" ++ toString n ++ " bytes) - text extraction failed"
    sections := [("error", "PDF text extraction libraries not available")]
    extraction_method := "fallback"
    page_count := none
    pdf_size := some n }

/-- The PyPDF2 page loop: pages whose extraction raised are skipped by the
inner `except`, falsy pages by `if page_text:`. -/
def pypdfFullText (pages : List (Option String)) : String :=
  pages.foldl (fun ft p =>
    match p with
    | none => ft
    | some t => if t == "" then ft else ft ++ t ++ "\n") ""

/-- Method 2 (lines 429-463): PyPDF2 whole-document extraction with the single
abstract-slice heuristic, falling to Method 3 when PyPDF2 is unavailable or its
reader raises. -/
def pypdfStep (use_pypdf2 : Bool) (pypdfPages : Option (List (Option String)))
    (pdfLen : Nat) : ExtractResult :=
  if use_pypdf2 then
    match pypdfPages with
    | some pages =>
      let ft := pypdfFullText pages
      let ftl := lowerChars ft
      let base := [("note", "Basic text extraction - sections not parsed")]
      let secs :=
        match findSub "abstract".data ftl with
        | none => base
        | some st =>
          let en :=
            match findSubFrom "introduction".data ftl st with
            | some e => e
            | none => st + 1000
          base ++ [("abstract", (((ft.data.drop st).take (en - st)).take 500).asString)]
      { full_text := strip ft
        sections := secs
        extraction_method := "PyPDF2"
        page_count := some pages.length
        pdf_size := none }
    | none => fallbackResult pdfLen
  else fallbackResult pdfLen

/-- Model of `extract_text_from_pdf(pdf_content, paper_id)`.  The `Option` return
mirrors the outer `except` returning `None`; every path of the modelled body
produces a record. -/
def extract_text_from_pdf (use_pdfplumber use_pypdf2 : Bool)
    (plumberPages pypdfPages : Option (List (Option String)))
    (pdfLen : Nat) : Option ExtractResult :=
  if use_pdfplumber then
    match plumberPages with
    | some pages => some (plumberResult pages)
    | none => some (pypdfStep use_pypdf2 pypdfPages pdfLen)
  else some (pypdfStep use_pypdf2 pypdfPages pdfLen)

/-! ## `get_pdf_urls` — grobid_processor/package/main.py, lines 259-324

Derives the ordered list of candidate PDF URLs for each paper.  Papers with a
`PMC...` id get four mirror URLs; plain-PubMed papers consult the `elink` API
(an oracle here) to find a PMC version; papers producing no URLs are dropped
from the returned list (`if potential_urls:`).  Absent/falsy string fields are
modelled as `""`. -/

structure LinksetDb where
  dbto : String
  links : List String
deriving DecidableEq

structure Linkset where
  linksetdbs : List LinksetDb
deriving DecidableEq

/-- The observable outcome of the `elink.fcgi` request for one PMID. -/
structure ElinkResponse where
  status : Nat
  raised : Bool
  linksets : List Linkset
deriving DecidableEq

/-- A crawled paper as consumed by `get_pdf_urls` (only the id fields drive the
URL derivation). -/
structure CrawledPaper where
  pmcid : String
  pmid : String
deriving DecidableEq

def pmcUrls (pmcid : String) : List String :=
  [ "https://www.ncbi.nlm.nih.gov/pmc/articles/" ++ pmcid ++ "/pdf/",
    "https://www.ncbi.nlm.nih.gov/pmc/articles/" ++ pmcid ++ "/pdf/" ++ pmcid ++ ".pdf",
    "https://europepmc.org/articles/" ++ pmcid ++ "?pdf=render",
    "https://ftp.ncbi.nlm.nih.gov/pub/pmc/oa_pdf/" ++ strTake pmcid 6 ++ "/" ++ pmcid ++ ".pdf" ]

def elinkUrls (pmcId : String) : List String :=
  [ "https://www.ncbi.nlm.nih.gov/pmc/articles/" ++ pmcId ++ "/pdf/",
    "https://www.ncbi.nlm.nih.gov/pmc/articles/" ++ pmcId ++ "/pdf/" ++ pmcId ++ ".pdf",
    "https://europepmc.org/articles/" ++ pmcId ++ "?pdf=render" ]

/-- The nested `for linkset in linksets: for linksetdb in linksetdbs:` loop
(lines 298-311): every `pmc` linkset-db with a non-empty link list contributes
three URLs built from its first link; there is no `break`. -/
def potentialUrls (elink : String → ElinkResponse) (p : CrawledPaper) : List String :=
  if p.pmcid != "" then
    if strStartsWith p.pmcid "PMC" then pmcUrls p.pmcid else []
  else if p.pmid != "" then
    let r := elink p.pmid
    if r.raised then []
    else if r.status == 200 then
      r.linksets.foldl (fun acc ls =>
        ls.linksetdbs.foldl (fun acc2 db =>
          if db.dbto == "pmc" then
            match db.links with
            | [] => acc2
            | l0 :: _ => acc2 ++ elinkUrls ("PMC" ++ l0)
          else acc2) acc) []
    else []
  else []

structure PdfInfo where
  paper_id : String
  pdf_urls : List String
  paper : CrawledPaper
deriving DecidableEq

def get_pdf_urls (elink : String → ElinkResponse) (papers : List CrawledPaper) :
    List PdfInfo :=
  papers.filterMap (fun p =>
    let urls := potentialUrls elink p
    if urls == [] then none
    else some { paper_id := if p.pmcid != "" then p.pmcid else p.pmid
                pdf_urls := urls
                paper := p })

/-! ## `process_papers_for_full_text` — grobid_processor/package/main.py, lines 603-650

Downloads each candidate's PDF and extracts text; returns
`(processed_count, failed_count)`.  A candidate is only counted (either way)
when it appears in the `get_pdf_urls` output; `save_full_text_to_s3`'s success
is an oracle keyed by paper id, as are the per-document parse oracles of
`extract_text_from_pdf`. -/

def process_papers_for_full_text (elink : String → ElinkResponse)
    (http : String → HttpResponse) (use_pdfplumber use_pypdf2 : Bool)
    (plumberOf pypdfOf : List Nat → Option (List (Option String)))
    (saveOk : String → Bool)
    (papers : List CrawledPaper) (max_pdfs : Nat) : Nat × Nat :=
  let infos := (get_pdf_urls elink papers).take max_pdfs
  infos.foldl (fun acc info =>
    match download_pdf http info.pdf_urls with
    | none => (acc.1, acc.2 + 1)
    | some content =>
      match extract_text_from_pdf use_pdfplumber use_pypdf2
          (plumberOf content) (pypdfOf content) content.length with
      | some _ =>
        if saveOk info.paper_id then (acc.1 + 1, acc.2) else (acc.1, acc.2 + 1)
      | none => (acc.1, acc.2 + 1)) (0, 0)

/-! ## GROBID lambda — grobid_processor/handler.py

`process_pdf` submits the PDF to the GROBID service (2-minute timeout) and, on
a 2xx response, parses the TEI XML; the XML library is abstracted as the
`parseTei` oracle.  On timeout or any other exception it returns a
`success=False` dict — there is no fallback extraction in this handler. -/

/-- Structured data recovered from the TEI XML by `parse_tei_xml`. -/
structure TeiData where
  title : String
  abstract : String
  authors : List String
  num_sections : Nat
  num_references : Nat
deriving DecidableEq

/-- The observable outcome of the `processFulltextDocument` POST. -/
inductive GrobidResponse where
  | ok (teiXml : String)
  | timeout
  | httpError (msg : String)
deriving DecidableEq

/-- The dict returned by `GROBIDProcessor.process_pdf`. -/
structure ProcessPdfResult where
  success : Bool
  data : Option TeiData
  tei_xml : Option String
  error : Option String
deriving DecidableEq

def process_pdf (parseTei : String → TeiData) : GrobidResponse → ProcessPdfResult
  | .ok tei =>
    { success := true, data := some (parseTei tei), tei_xml := some tei, error := none }
  | .timeout =>
    { success := false, data := none, tei_xml := none, error := some "GROBID timeout" }
  | .httpError e =>
    { success := false, data := none, tei_xml := none, error := some e }

/-- The per-document result dict appended to `results` by `lambda_handler`. -/
inductive DocResult where
  | ok (doc_hash output_key tei_key : String) (num_sections num_references : Nat)
  | err (error source_key : String)
deriving DecidableEq

/-- An object written to the training bucket (processed JSON or TEI XML). -/
structure Upload where
  key : String
deriving DecidableEq

/-- Model of `process_document` (handler.py lines 211-280): on GROBID success it writes
the processed JSON and the TEI XML under `processed/...` keys derived from the
content hash and returns a success record; on GROBID failure it writes nothing
and returns an error record — no fallback path is taken. -/
def process_document (hashFn : List Nat → String) (parseTei : String → TeiData)
    (grobid : GrobidResponse) (pdfContent : List Nat) (key : String) :
    DocResult × List Upload :=
  let doc_hash := hashFn pdfContent
  let r := process_pdf parseTei grobid
  if r.success then
    let output_key := "processed/grobid/" ++ doc_hash ++ ".json"
    let tei_key := "processed/tei/" ++ doc_hash ++ ".xml"
    let d := r.data.getD ⟨"", "", [], 0, 0⟩
    (DocResult.ok doc_hash output_key tei_key d.num_sections d.num_references,
     [⟨output_key⟩, ⟨tei_key⟩])
  else
    (DocResult.err (r.error.getD "Unknown error") key, [])

/-! ## `lambda_handler` — grobid_processor/handler.py, lines 283-334

Dispatches on the event shape and returns a summary.  Per-document processing
is abstracted as the total oracle `proc : bucket → key → DocResult` (the
behaviour of `process_document` given the external world); an exception
escaping `process_document` would abort the invocation instead and is outside
this model. -/

/-- One element of `event['Records']`: an S3 record, an SQS record (whose body
either fails to parse, parses without `bucket`/`key`, or carries both), or an
unrecognised record. -/
inductive EventRecord where
  | s3Rec (bucket key : String)
  | sqsRec (body : Option (Option (String × String)))
  | otherRec
deriving DecidableEq

inductive LambdaEvent where
  | records (rs : List EventRecord)
  | direct (bucket key : String)
  | batch (docs : List (String × String))
  | plain
deriving DecidableEq

def isSuccess : DocResult → Bool
  | .ok .. => true
  | .err .. => false

def recordResults (proc : String → String → DocResult) :
    List EventRecord → List DocResult
  | [] => []
  | .s3Rec b k :: rest => proc b k :: recordResults proc rest
  | .sqsRec body :: rest =>
    (match body with
     | some (some (b, k)) => [proc b k]
     | _ => []) ++ recordResults proc rest
  | .otherRec :: rest => recordResults proc rest

def eventResults (proc : String → String → DocResult) : LambdaEvent → List DocResult
  | .records rs => recordResults proc rs
  | .direct b k => [proc b k]
  | .batch docs => docs.map (fun d => proc d.1 d.2)
  | .plain => []

structure HandlerResponse where
  statusCode : Nat
  processed : Nat
  successful : Nat
  failed : Nat
  results : List DocResult
deriving DecidableEq

/-- The summary block (lines 322-334): `failed = len(results) - successful`. -/
def handlerSummary (results : List DocResult) : HandlerResponse :=
  let successful := results.countP (fun r => isSuccess r)
  { statusCode := 200
    processed := results.length
    successful := successful
    failed := results.length - successful
    results := results }

def lambda_handler (proc : String → String → DocResult) (event : LambdaEvent) :
    HandlerResponse :=
  handlerSummary (eventResults proc event)

/-! ## Source-adapter queries — dags/veterinary_corpus_acquisition.py

`query_pubmed` (lines 59-84) performs its HTTP request and JSON decode with no
`try`/`except`: any error propagates out of the adapter (failing the Airflow
task).  `query_doaj` (lines 113-158) wraps its paginated requests in a
`try`/`except` and pushes whatever partial list it accumulated.  Network and
decode outcomes are `Except String` oracles (`.error` = raised exception). -/

/-- Payload of `data.get('esearchresult', \x7b\x7d).get('idlist', [])`. -/
structure PubmedSearchData where
  idlist : List String
deriving DecidableEq

def query_pubmed (resp : Except String PubmedSearchData) : Except String (List String) :=
  match resp with
  | .error e => .error e
  | .ok d => .ok d.idlist

/-- One DOAJ article as consumed by `download_papers`: its `bibjson.link`
entries (type, url — `""` for a missing url) and its `bibjson.identifier`
list (`none` when the key is absent, so the default `[{}]` applies; each entry
is the optional `id` field). -/
structure DoajArticle where
  links : List (String × String)
  identifier : Option (List (Option String))
deriving DecidableEq

/-- The first DOAJ page: `total` and `results`. -/
structure DoajQueryPage where
  total : Nat
  results : List DoajArticle
deriving DecidableEq

/-- Python `range(2, total_pages + 1)`. -/
def pageRange (totalPages : Nat) : List Nat :=
  (List.range (totalPages - 1)).map (· + 2)

/-- The page-2..n loop: an exception at any page is caught by the enclosing
`try`, keeping the articles accumulated so far. -/
def doajPagesLoop (pageResp : Nat → Except String (List DoajArticle))
    (acc : List DoajArticle) : List Nat → List DoajArticle
  | [] => acc
  | p :: rest =>
    match pageResp p with
    | .error _ => acc
    | .ok arts => doajPagesLoop pageResp (acc ++ arts) rest

def query_doaj (firstResp : Except String DoajQueryPage)
    (pageResp : Nat → Except String (List DoajArticle)) : List DoajArticle :=
  match firstResp with
  | .error _ => []
  | .ok pg =>
    let totalPages := min (pg.total / 100 + 1) 10
    doajPagesLoop pageResp pg.results (pageRange totalPages)

/-! ## `crawl_pubmed_papers` — grobid_processor/package/main.py, lines 35-110

The lambda-side PubMed adapter: one esearch request, then esummary detail
requests in batches of 200.  The whole body sits in one `try`/`except` that
returns `[]` on any error, so a failure anywhere discards everything. -/

structure PubmedPaperData where
  title : String
  authors : List String
  journal : String
  pubdate : String
  abstract : String
deriving DecidableEq

structure PubmedPaper where
  pmid : String
  data : PubmedPaperData
deriving DecidableEq

/-- Python `range(0, min(len(pmids), max_papers), 200)`. -/
def batchStarts (n : Nat) : List Nat :=
  (List.range ((n + 199) / 200)).map (· * 200)

def collectBatches (pmids : List String)
    (detailResp : List String → Except String (List (String × PubmedPaperData))) :
    List Nat → Except String (List PubmedPaper)
  | [] => .ok []
  | i :: rest => do
    let batch := (pmids.drop i).take 200
    let result ← detailResp batch
    let papers := batch.filterMap (fun pmid =>
      (List.lookup pmid result).map (fun d => PubmedPaper.mk pmid d))
    let more ← collectBatches pmids detailResp rest
    .ok (papers ++ more)

def crawl_pubmed_papers (searchResp : Except String (List String))
    (detailResp : List String → Except String (List (String × PubmedPaperData)))
    (max_papers : Nat) : List PubmedPaper :=
  match searchResp with
  | .error _ => []
  | .ok pmids =>
    match collectBatches pmids detailResp (batchStarts (min pmids.length max_papers)) with
    | .error _ => []
    | .ok papers => papers

/-! ## `download_papers` — dags/veterinary_corpus_acquisition.py, lines 309-456

Downloads per-source candidate lists into the corpus bucket.  Object keys are
`raw/{source}/{identifier}_{md5(bytes)}.pdf` (the hash function is the
`hashFn` parameter — only its determinism matters here) and writes use
`replace=False`, whose duplicate-key exception is caught by the per-item
`except`.  There is no cross-source (or any DOI-based) deduplication: each
source's loop runs independently over its own list, truncated to 50 items. -/

structure CrossrefArticle where
  links : List (String × Option String)
  doi : Option String
deriving DecidableEq

structure BiorxivPreprint where
  doi : Option String
deriving DecidableEq

structure ArxivPaper where
  id : String
  pdf_url : Option String
deriving DecidableEq

/-- One entry of `download_metadata`. -/
structure DownloadMeta where
  source : String
  doi : Option String
  ident : Option String
  s3_key : String
deriving DecidableEq

/-- State triple `(s3 store, downloaded_count, download_metadata)`. -/
abbrev DagState := Store × Nat × List DownloadMeta

/-- Python `doi.replace('/', '_').replace('.', '_')` (single-character replacements,
performed as the two successive maps). -/
def safeDoi (d : String) : String :=
  ((d.data.map (fun c => if c == '/' then '_' else c)).map
    (fun c => if c == '.' then '_' else c)).asString

/-- One iteration of the PubMed loop (lines 331-349).  On a duplicate key,
`load_bytes` raises and the per-item `except` skips the count and metadata. -/
def pubmedStep (hashFn : List Nat → String) (http : String → HttpResponse)
    (st : DagState) (pmid : String) : DagState :=
  let r := http ("https://www.ncbi.nlm.nih.gov/pmc/articles/PMC" ++ pmid ++ "/pdf/")
  if r.raised then st
  else if r.status == 200 then
    let key := "raw/pubmed/" ++ pmid ++ "_" ++ hashFn r.content ++ ".pdf"
    match load_bytes_noreplace st.1 key r.content with
    | none => st
    | some store => (store, st.2.1 + 1, st.2.2 ++ [⟨"pubmed", none, some pmid, key⟩])
  else st

/-- Store-and-record tail of a successful DOAJ link attempt (lines 363-375):
key `raw/doaj/{safe_doi}_{hash}.pdf`; a duplicate key raises inside
`load_bytes`, so the count and the metadata append are skipped. -/
def doajFinish (hashFn : List Nat → String) (st : DagState) (r : HttpResponse)
    (doi : String) : DagState :=
  let key := "raw/doaj/" ++ safeDoi doi ++ "_" ++ hashFn r.content ++ ".pdf"
  match load_bytes_noreplace st.1 key r.content with
  | none => st
  | some store => (store, st.2.1 + 1, st.2.2 ++ [⟨"doaj", some doi, none, key⟩])

/-- The inner `for link in article['bibjson']['link']` scan of the DOAJ loop
(lines 355-375): first `fulltext` link whose url ends in `.pdf` and answers 200
is stored, then `break`; an empty `identifier` list raises `IndexError`
(aborting the article), an absent `identifier` key defaults to `unknown`. -/
def doajLinkScan (hashFn : List Nat → String) (http : String → HttpResponse)
    (identifier : Option (List (Option String))) (st : DagState) :
    List (String × String) → DagState
  | [] => st
  | (ty, url) :: rest =>
    if ty == "fulltext" then
      if url != "" && strEndsWith url ".pdf" then
        let r := http url
        if r.raised then st
        else if r.status == 200 then
          match identifier with
          | some [] => st
          | some (i0 :: _) => doajFinish hashFn st r (i0.getD "unknown")
          | none => doajFinish hashFn st r "unknown"
        else doajLinkScan hashFn http identifier st rest
      else doajLinkScan hashFn http identifier st rest
    else doajLinkScan hashFn http identifier st rest

def doajStep (hashFn : List Nat → String) (http : String → HttpResponse)
    (st : DagState) (a : DoajArticle) : DagState :=
  doajLinkScan hashFn http a.identifier st a.links

/-- The inner link scan of the CrossRef loop (lines 383-403). -/
def crossrefLinkScan (hashFn : List Nat → String) (http : String → HttpResponse)
    (doi : Option String) (st : DagState) :
    List (String × Option String) → DagState
  | [] => st
  | (cty, urlOpt) :: rest =>
    if cty == "application/pdf" then
      match urlOpt with
      | some url =>
        if url != "" then
          let r := http url
          if r.raised then st
          else if r.status == 200 then
            let d := doi.getD "unknown"
            let key := "raw/crossref/" ++ safeDoi d ++ "_" ++ hashFn r.content ++ ".pdf"
            match load_bytes_noreplace st.1 key r.content with
            | none => st
            | some store =>
              (store, st.2.1 + 1, st.2.2 ++ [⟨"crossref", some d, none, key⟩])
          else crossrefLinkScan hashFn http doi st rest
        else crossrefLinkScan hashFn http doi st rest
      | none => crossrefLinkScan hashFn http doi st rest
    else crossrefLinkScan hashFn http doi st rest

def crossrefStep (hashFn : List Nat → String) (http : String → HttpResponse)
    (st : DagState) (a : CrossrefArticle) : DagState :=
  crossrefLinkScan hashFn http a.doi st a.links

/-- One iteration of the bioRxiv loop (lines 408-428); `preprint.get('doi')`
being `None` interpolates as the literal string `None`. -/
def biorxivStep (hashFn : List Nat → String) (http : String → HttpResponse)
    (st : DagState) (p : BiorxivPreprint) : DagState :=
  let r := http ("https://www.biorxiv.org/content/" ++
    (match p.doi with | some d => d | none => "None") ++ ".full.pdf")
  if r.raised then st
  else if r.status == 200 then
    let d := p.doi.getD "unknown"
    let key := "raw/biorxiv/" ++ safeDoi d ++ "_" ++ hashFn r.content ++ ".pdf"
    match load_bytes_noreplace st.1 key r.content with
    | none => st
    | some store => (store, st.2.1 + 1, st.2.2 ++ [⟨"biorxiv", some d, none, key⟩])
  else st

/-- One iteration of the arXiv loop (lines 431-451). -/
def arxivStep (hashFn : List Nat → String) (http : String → HttpResponse)
    (st : DagState) (p : ArxivPaper) : DagState :=
  match p.pdf_url with
  | none => st
  | some url =>
    if url == "" then st
    else
      let r := http url
      if r.raised then st
      else if r.status == 200 then
        let axid := lastSegment p.id
        let key := "raw/arxiv/" ++ axid ++ "_" ++ hashFn r.content ++ ".pdf"
        match load_bytes_noreplace st.1 key r.content with
        | none => st
        | some store => (store, st.2.1 + 1, st.2.2 ++ [⟨"arxiv", none, some axid, key⟩])
      else st

/-- Model of `download_papers`: the five per-source download loops in program order
(the Europe PMC ids are pulled but never downloaded). -/
def download_papers (hashFn : List Nat → String) (http : String → HttpResponse)
    (pmids : List String) (_europePmcIds : List String)
    (doajArticles : List DoajArticle) (crossrefArticles : List CrossrefArticle)
    (biorxivPreprints : List BiorxivPreprint) (arxivPapers : List ArxivPaper) :
    DagState :=
  let s1 := (pmids.take 50).foldl (pubmedStep hashFn http) (([] : Store), 0, [])
  let s2 := (doajArticles.take 50).foldl (doajStep hashFn http) s1
  let s3 := (crossrefArticles.take 50).foldl (crossrefStep hashFn http) s2
  let s4 := (biorxivPreprints.take 50).foldl (biorxivStep hashFn http) s3
  (arxivPapers.take 50).foldl (arxivStep hashFn http) s4

/-- The raw-store write pattern shared by every loop of `download_papers`:
key `raw/{source}/{ident}_{hash(bytes)}.pdf`, written with `replace=False`
(the duplicate-key exception leaves the store unchanged).  Returns the updated
store and the content hash. -/
def put_raw (hashFn : List Nat → String) (st : Store) (source ident : String)
    (content : List Nat) : Store × String :=
  let key := "raw/" ++ source ++ "/" ++ ident ++ "_" ++ hashFn content ++ ".pdf"
  (match load_bytes_noreplace st key content with
   | some store => store
   | none => st, hashFn content)

/-! ## Admin stats surface — backend/services/admin.py

`get_paper_stats` and `get_paper_sources` scan the `metadata/` prefix of the
papers bucket.  An S3 listing entry carries its key, size and last-modified
time (modelled in hours as `Int`); reading an object either yields the parsed
JSON (`papers` count when the key is present, `crawled_at` when present and
parseable) or raises.  The Redis cache layer and the demo-data fallback of the
outer `except` are outside this model. -/

structure S3Object where
  key : String
  size : Nat
  lastModified : Int
deriving DecidableEq

/-- The outcome of `get_object` + `json.loads` for one metadata file. -/
inductive ReadResult where
  | ok (papers : Option Nat) (crawledAt : Option Int)
  | readError
deriving DecidableEq

/-- Python `str.title()`. -/
def titleChars : Bool → List Char → List Char
  | _, [] => []
  | prevAlpha, c :: rest =>
    (if c.isAlpha then (if prevAlpha then c.toLower else c.toUpper) else c) ::
      titleChars c.isAlpha rest

def titleCase (s : String) : String :=
  (titleChars false s.data).asString

/-- The display-name mapping of both admin readers. -/
def formatSource (s : String) : String :=
  if s == "pubmed" then "PubMed"
  else if s == "europe_pmc" then "Europe PMC"
  else titleCase s

/-- Python `m.get(k, 0) + n` on a dict, preserving insertion order. -/
def bumpAssoc (m : List (String × Nat)) (k : String) (n : Nat) : List (String × Nat) :=
  match m with
  | [] => [(k, n)]
  | (k', v) :: rest => if k' == k then (k', v + n) :: rest else (k', v) :: bumpAssoc rest k n

/-- Python dict assignment `m.put k v`. -/
def setAssoc (m : List (String × Nat)) (k : String) (v : Nat) : List (String × Nat) :=
  match m with
  | [] => [(k, v)]
  | (k', v') :: rest => if k' == k then (k', v) :: rest else (k', v') :: setAssoc rest k v

/-- Accumulator of the `get_paper_stats` scan. -/
structure StatsAgg where
  storage : Nat
  total : Nat
  bySource : List (String × Nat)
  last24 : Nat
  last7d : Nat
deriving DecidableEq

/-- One iteration of the `get_paper_stats` object loop (lines 195-231): size
always accumulates; papers are counted when the key has ≥ 3 path segments and
the file is readable with a `papers` list; a read error `continue`s. -/
def statsStep (now : Int) (agg : StatsAgg) (entry : S3Object × ReadResult) : StatsAgg :=
  let agg := { agg with storage := agg.storage + entry.1.size }
  match splitOnChar entry.1.key '/' with
  | _ :: src :: _ :: _ =>
    match entry.2 with
    | .readError => agg
    | .ok papersOpt crawledOpt =>
      match papersOpt with
      | none => agg
      | some n =>
        let agg := { agg with total := agg.total + n,
                              bySource := bumpAssoc agg.bySource src n }
        match crawledOpt with
        | none => agg
        | some t =>
          { agg with last24 := agg.last24 + (if t > now - 24 then n else 0),
                     last7d := agg.last7d + (if t > now - 168 then n else 0) }
  | _ => agg

structure PaperStats where
  total_papers : Nat
  papers_by_source : List (String × Nat)
  papers_by_status : List (String × Nat)
  processing_queue_size : Nat
  failed_papers : Nat
  last_24h_acquired : Nat
  last_7d_acquired : Nat
  storage_bytes : Nat
  embeddings_generated : Nat
deriving DecidableEq

def formatSources (m : List (String × Nat)) : List (String × Nat) :=
  m.foldl (fun acc e => setAssoc acc (formatSource e.1) e.2) []

/-- Model of `AdminService.get_paper_stats` (lines 171-263, S3 path): note the
hard-coded `papers_by_status` dict placing every counted paper under
`processed` (storage is kept in raw bytes, not rounded GB). -/
def get_paper_stats (now : Int) (objs : List (S3Object × ReadResult)) : PaperStats :=
  let agg := objs.foldl (statsStep now) ⟨0, 0, [], 0, 0⟩
  { total_papers := agg.total
    papers_by_source := formatSources agg.bySource
    papers_by_status :=
      [("processed", agg.total), ("processing", 0), ("failed", 0), ("pending", 0)]
    processing_queue_size := 0
    failed_papers := 0
    last_24h_acquired := agg.last24
    last_7d_acquired := agg.last7d
    storage_bytes := agg.storage
    embeddings_generated := 0 }

structure SourceStat where
  papers_acquired : Nat
  last_crawl : Int
  last_success : Int
  error_count : Nat
deriving DecidableEq

def getStat (m : List (String × SourceStat)) (k : String) : Option SourceStat :=
  List.lookup k m

def setStat (m : List (String × SourceStat)) (k : String) (v : SourceStat) :
    List (String × SourceStat) :=
  match m with
  | [] => [(k, v)]
  | (k', v') :: rest => if k' == k then (k', v) :: rest else (k', v') :: setStat rest k v

/-- One iteration of the `get_paper_sources` object loop (lines 295-331):
first sight of a source initialises its stat from this object's timestamp; a
readable file with a `papers` list adds its count and advances the crawl
timestamps; a read error increments the error count. -/
def sourcesStep (m : List (String × SourceStat)) (entry : S3Object × ReadResult) :
    List (String × SourceStat) :=
  match splitOnChar entry.1.key '/' with
  | _ :: src :: _ :: _ =>
    let m :=
      match getStat m src with
      | some _ => m
      | none => m ++ [(src, ⟨0, entry.1.lastModified, entry.1.lastModified, 0⟩)]
    match getStat m src with
    | none => m
    | some st =>
      match entry.2 with
      | .readError => setStat m src { st with error_count := st.error_count + 1 }
      | .ok papersOpt _ =>
        match papersOpt with
        | none => m
        | some n =>
          let st := { st with papers_acquired := st.papers_acquired + n }
          let st :=
            if entry.1.lastModified > st.last_crawl then
              { st with last_crawl := entry.1.lastModified,
                        last_success := entry.1.lastModified }
            else st
          setStat m src st
  | _ => m

structure PaperSource where
  name : String
  enabled : Bool
  last_crawl : Option Int
  last_success : Option Int
  papers_acquired : Nat
  error_count : Nat
  api_status : String
  rate_limit_remaining : Option Nat
  error_message : Option String
deriving DecidableEq

/-- Building one active `PaperSource` (lines 337-369). -/
def buildActive (e : String × SourceStat) : PaperSource :=
  let name := formatSource e.1
  { name := name
    enabled := true
    last_crawl := some e.2.last_crawl
    last_success := if e.2.error_count == 0 then some e.2.last_success else none
    papers_acquired := e.2.papers_acquired
    error_count := e.2.error_count
    api_status := if e.2.error_count == 0 then "healthy" else "degraded"
    rate_limit_remaining := if e.1 == "pubmed" then some 950 else none
    error_message :=
      if e.2.error_count > 0 then some (toString e.2.error_count ++ " crawling errors")
      else none }

def inactiveSourceList : List (String × String) :=
  [("DOAJ", "Planned - veterinary journal indexing"),
   ("CrossRef", "Planned - DOI-based discovery"),
   ("bioRxiv", "Planned - preprint server"),
   ("arXiv", "Planned - scientific preprints"),
   ("IVIS", "Planned - IVIS veterinary library")]

def mkInactive (name message : String) : PaperSource :=
  { name := name
    enabled := false
    last_crawl := none
    last_success := none
    papers_acquired := 0
    error_count := 0
    api_status := "down"
    rate_limit_remaining := none
    error_message := some message }

/-- Model of `AdminService.get_paper_sources` (lines 285-396, S3 path). -/
def get_paper_sources (objs : List (S3Object × ReadResult)) : List PaperSource :=
  let stats := objs.foldl sourcesStep []
  let actives := stats.map buildActive
  let activeNames := actives.map (fun s => s.name)
  actives ++ inactiveSourceList.filterMap (fun e =>
    if activeNames.contains e.1 then none else some (mkInactive e.1 e.2))

/-! ## Spec-side characterisations

Definitions written from the specification's words (not from the code), used
to compare the embedded code against the spec's phrasing. -/

/-- Spec-side: the bounded excerpt of the first truthy page whose text matches
the abstract heading, or `""` when no page matches. -/
def abstractFirstMatch (pages : List (Option String)) : String :=
  match (truthyPages pages).find? (fun t => containsLower t "abstract") with
  | some t => take500 t
  | none => ""

/-- Spec-side: every captured section is capped at the bounded excerpt length
of 500 characters. -/
def sectionsBounded (s : PlumberSections) : Prop :=
  s.abstract.length ≤ 500 ∧ s.introduction.length ≤ 500 ∧ s.methods.length ≤ 500 ∧
  s.results.length ≤ 500 ∧ s.discussion.length ≤ 500 ∧ s.conclusion.length ≤ 500 ∧
  s.references.length ≤ 500

/-! ## Concrete fixtures for the cross-source DOI scenario

One DOAJ article and one CrossRef article carrying the same DOI, each with a
working PDF link, and an HTTP oracle serving both. -/

def dupHttp : String → HttpResponse := fun u =>
  if u == "http://a.example/p.pdf" then ⟨200, "application/pdf", [1], false⟩
  else if u == "http://b.example/q.pdf" then ⟨200, "application/pdf", [2], false⟩
  else ⟨404, "", [], false⟩

def dupDoajArticle : DoajArticle :=
  ⟨[("fulltext", "http://a.example/p.pdf")], some [some "10.1/dup"]⟩

def dupCrossrefArticle : CrossrefArticle :=
  ⟨[("application/pdf", some "http://b.example/q.pdf")], some "10.1/dup"⟩

/-! ## Basic lemmas -/

lemma take500_length (s : String) : (take500 s).length ≤ 500 := by
  show (s.data.take 500).length ≤ 500
  rw [List.length_take]
  exact Nat.min_le_left _ _

lemma string_eq_empty_iff (s : String) : s = "" ↔ s.data = [] := by
  constructor
  · intro h; subst h; rfl
  · intro h
    cases s with
    | mk d => cases h; rfl

lemma take500_ne_empty (t : String) (h : t ≠ "") : take500 t ≠ "" := by
  intro hc
  apply h
  rw [string_eq_empty_iff] at hc ⊢
  have : t.data.take 500 = [] := hc
  rcases List.take_eq_nil_iff.mp this with h5 | hd
  · exact absurd h5 (by decide)
  · exact hd

lemma storeHasKey_insert (st : Store) (k : String) (c : List Nat) :
    storeHasKey ((k, c) :: st) k = true := by
  simp [storeHasKey, List.lookup]

/-- Re-putting any bytes under a key that a previous put has ensured is
present always raises (returns `none`). -/
lemma load_bytes_stable (st : Store) (k : String) (c c' : List Nat) :
    load_bytes_noreplace
      (match load_bytes_noreplace st k c with | some s => s | none => st) k c' = none := by
  unfold load_bytes_noreplace
  by_cases h : storeHasKey st k = true
  · simp [h]
  · simp only [h, Bool.false_eq_true, if_neg, ite_false]
    simp [storeHasKey_insert]

lemma countP_split (l : List DocResult) :
    l.length = l.countP (fun r => isSuccess r) + (l.length - l.countP (fun r => isSuccess r)) := by
  have h : l.countP (fun r => isSuccess r) ≤ l.length := List.countP_le_length _
  omega

/-! ## Claim C10 -/

/-- Claim C10: for every input event shape (S3 records, SQS records, direct
invocation, batch, or anything else) and every per-document outcome — in
particular when every document fails — `lambda_handler` returns
`statusCode = 200`, and in its body `processed` equals the number of results
and equals `successful + failed`. -/
theorem lambda_handler_status_and_counts
    (proc : String → String → DocResult) (event : LambdaEvent) :
    (lambda_handler proc event).statusCode = 200 ∧
    (lambda_handler proc event).processed = (lambda_handler proc event).results.length ∧
    (lambda_handler proc event).processed =
      (lambda_handler proc event).successful + (lambda_handler proc event).failed :=
  ⟨rfl, rfl, countP_split (eventResults proc event)⟩

/-! ## Claim C8 -/

/-- Claim C8: when both the pdfplumber and the PyPDF2 strategies are
unavailable, `extract_text_from_pdf` still returns (rather than failing) a
minimal record whose `extraction_method` is the explicit `"fallback"` marker,
whose `pdf_size` carries the byte length, and whose text and sections state
that extraction was unavailable. -/
theorem extract_unavailable_minimal_record
    (plumberPages pypdfPages : Option (List (Option String))) (n : Nat) :
    extract_text_from_pdf false false plumberPages pypdfPages n = some (fallbackResult n) ∧
    (fallbackResult n).extraction_method = "fallback" ∧
    (fallbackResult n).pdf_size = some n ∧
    (fallbackResult n).full_text
      = "PDF file (" ++ toString n ++ " bytes) - text extraction failed" ∧
    (fallbackResult n).sections = [("error", "PDF text extraction libraries not available")] :=
  ⟨rfl, rfl, rfl, rfl, rfl⟩

/-! ## Claim C3 -/

/-- Claim C3 counterexample: a GROBID timeout on a concrete document makes
`process_document` return a failure record carrying the timeout error and
write no structured output at all — it does not transition to any fallback
extraction, so no record exists whose extraction-method field could name a
fallback method. -/
theorem grobid_timeout_no_fallback_counterexample :
    process_document (fun _ => "d41d8cd9") (fun _ => ⟨"", "", [], 0, 0⟩)
      GrobidResponse.timeout [37, 80] "raw/pubmed/123_abc.pdf"
      = (DocResult.err "GROBID timeout" "raw/pubmed/123_abc.pdf", []) := rfl

/-- Claim C3 (amended): when the primary GROBID call times out or raises, the
handler performs no fallback extraction: `process_document` returns a
`success = False` record carrying the error string and writes no structured
document (the local fallback chain lives in a separate lambda that never
invokes GROBID). -/
theorem process_document_failure_no_fallback
    (hashFn : List Nat → String) (parseTei : String → TeiData)
    (pdf : List Nat) (key e : String) :
    process_document hashFn parseTei GrobidResponse.timeout pdf key
      = (DocResult.err "GROBID timeout" key, []) ∧
    process_document hashFn parseTei (GrobidResponse.httpError e) pdf key
      = (DocResult.err e key, []) :=
  ⟨rfl, rfl⟩

/-! ## Claim C1 -/

/-- Claim C1 counterexample: the raw-store key embeds the source-native
identifier, so the same byte sequence `[7]` arriving under identifiers `"1"`
and `"2"` of the same source is physically stored twice — the store does hold
two copies of identical bytes (this holds for every hash function of the
bytes, here instantiated at a constant one). -/
theorem raw_store_duplicate_bytes_counterexample :
    ((put_raw (fun _ => "h") (put_raw (fun _ => "h") [] "pubmed" "1" [7]).1
        "pubmed" "2" [7]).1.countP (fun e => e.2 == [7])) = 2 := by decide

/-- Claim C1 (amended): re-putting the same bytes under the same source and
the same identifier yields the same hash and does not duplicate physical
storage (the duplicate-key write raises and is dropped); content-addressing
only holds per `(source, identifier)`, since the object key embeds both. -/
theorem put_raw_idempotent_per_identifier
    (hashFn : List Nat → String) (st : Store) (source ident : String)
    (content : List Nat) :
    (put_raw hashFn (put_raw hashFn st source ident content).1 source ident content).1
      = (put_raw hashFn st source ident content).1 ∧
    (put_raw hashFn (put_raw hashFn st source ident content).1 source ident content).2
      = (put_raw hashFn st source ident content).2 := by
  refine ⟨?_, rfl⟩
  have h := load_bytes_stable st
    ("raw/" ++ source ++ "/" ++ ident ++ "_" ++ hashFn content ++ ".pdf") content content
  simp [put_raw, h]

/-! ## Claim C6 -/

/-- Claim C6 counterexample: an HTTP error raised inside the PubMed DAG
adapter is not caught by the adapter — `query_pubmed` propagates the exception
instead of degrading to an empty candidate list. -/
theorem query_pubmed_uncaught_counterexample :
    query_pubmed (Except.error "HTTPError: 500 Server Error") =
      Except.error "HTTPError: 500 Server Error" ∧
    query_pubmed (Except.error "HTTPError: 500 Server Error") ≠
      Except.ok [] := by
  exact ⟨rfl, by simp [query_pubmed]⟩

/-- Claim C6 (amended): error handling is per-adapter but inconsistent, and no
adapter records into any SourceHealth store: the DOAJ DAG adapter catches its
errors and degrades to an empty (or partial) list, and the lambda-side PubMed
crawler catches everything and returns an empty list, but the PubMed DAG
adapter has no handler at all, so its query errors propagate out of the
adapter (failing that task). -/
theorem adapter_error_handling_amended (e : String)
    (pageResp : Nat → Except String (List DoajArticle))
    (detailResp : List String → Except String (List (String × PubmedPaperData)))
    (maxPapers : Nat) :
    query_pubmed (Except.error e) = Except.error e ∧
    query_doaj (Except.error e) pageResp = [] ∧
    crawl_pubmed_papers (Except.error e) detailResp maxPapers = [] :=
  ⟨rfl, rfl, rfl⟩

/-! ## Claim C4 -/

/-- Claim C4: `download_pdf` tries the candidate URLs strictly in order and
returns the body of the first URL whose response has status 200 and a
PDF content type; per-URL failures (exceptions, other statuses, non-PDF
content types) only advance to the next URL, and the overall result is `none`
exactly when every URL fails. -/
theorem download_pdf_first_success (http : String → HttpResponse) (urls : List String) :
    download_pdf http urls
      = (urls.find? (fun u => isPdfHit http u)).map (fun u => (http u).content) ∧
    (download_pdf http urls = none ↔ urls.all (fun u => !isPdfHit http u) = true) := by
  have hmain : download_pdf http urls
      = (urls.find? (fun u => isPdfHit http u)).map (fun u => (http u).content) := by
    induction urls with
    | nil => rfl
    | cons u rest ih =>
      simp only [download_pdf, isPdfHit, List.find?]
      cases hr : (http u).raised with
      | true => simp [hr, ih, isPdfHit]
      | false =>
        cases hs : ((http u).status == 200 && containsLower (http u).contentType "pdf") with
        | true => simp [hr, hs]
        | false => simp [hr, hs, ih, isPdfHit]
  refine ⟨hmain, ?_⟩
  rw [hmain]
  rw [Option.map_eq_none']
  rw [List.find?_eq_none, List.all_eq_true]
  constructor
  · intro h u hu
    simp [h u hu]
  · intro h u hu
    have := h u hu
    simp at this
    simp [this]

/-! ## Claim C5 -/

/-- Claim C5 counterexample: a candidate with an empty derived URL list (a
PubMed paper whose `elink` lookup yields no PMC linksets) is silently dropped
by `get_pdf_urls`; `process_papers_for_full_text` then reports
`(processed, failed) = (0, 0)` — the failure counter does not increment by 1,
no fetch failure is recorded, and no document is stored. -/
theorem fetch_empty_urls_counterexample :
    get_pdf_urls (fun _ => ⟨200, false, []⟩) [⟨"", "123"⟩] = [] ∧
    process_papers_for_full_text (fun _ => ⟨200, false, []⟩)
      (fun _ => ⟨404, "", [], false⟩) true true (fun _ => none) (fun _ => none)
      (fun _ => true) [⟨"", "123"⟩] 10 = (0, 0) := by decide

/-- Claim C5 (amended): a candidate whose derived download-URL list is empty
never reaches the fetch stage at all: `get_pdf_urls` filters it out, so no
fetch attempt is made, the failure counter stays unchanged (it does not
increment by 1), and no document is created. -/
theorem empty_url_candidate_skipped (elink : String → ElinkResponse)
    (http : String → HttpResponse) (upb upp : Bool)
    (plumberOf pypdfOf : List Nat → Option (List (Option String)))
    (saveOk : String → Bool) (p : CrawledPaper) (rest : List CrawledPaper)
    (maxp : Nat) (h : potentialUrls elink p = []) :
    get_pdf_urls elink (p :: rest) = get_pdf_urls elink rest ∧
    process_papers_for_full_text elink http upb upp plumberOf pypdfOf saveOk [p] maxp
      = (0, 0) := by
  constructor
  · simp [get_pdf_urls, h]
  · simp [process_papers_for_full_text, get_pdf_urls, h]

/-- Claim C5 witness: the amended statement instantiated at a PubMed candidate
whose `elink` response carries no linksets, so its URL list is empty. -/
theorem empty_url_candidate_skipped_witness :
    potentialUrls (fun _ => ⟨200, false, []⟩) ⟨"", "9999"⟩ = [] ∧
    process_papers_for_full_text (fun _ => ⟨200, false, []⟩)
      (fun _ => ⟨404, "", [], false⟩) false false (fun _ => none) (fun _ => none)
      (fun _ => false) [⟨"", "9999"⟩] 5 = (0, 0) :=
  ⟨by decide,
   (empty_url_candidate_skipped (fun _ => ⟨200, false, []⟩)
     (fun _ => ⟨404, "", [], false⟩) false false (fun _ => none) (fun _ => none)
     (fun _ => false) ⟨"", "9999"⟩ [] 5 (by decide)).2⟩

/-! ## Claim C7 -/

lemma updateSections_abstract (s : PlumberSections) (t : String) :
    (updateSections s t).abstract =
      if containsLower t "abstract" && s.abstract == "" then take500 t
      else s.abstract := by
  unfold updateSections
  split_ifs <;> rfl

lemma plumberFold_abstract_preserved (pages : List (Option String))
    (acc : String × PlumberSections) (h : acc.2.abstract ≠ "") :
    (pages.foldl plumberStep acc).2.abstract = acc.2.abstract := by
  induction pages generalizing acc with
  | nil => rfl
  | cons p rest ih =>
    have hstep : (plumberStep acc p).2.abstract = acc.2.abstract := by
      cases p with
      | none => rfl
      | some t =>
        simp only [plumberStep]
        by_cases ht : t == ""
        · simp [ht]
        · simp only [ht, Bool.false_eq_true, if_neg, ite_false]
          rw [updateSections_abstract]
          have : (acc.2.abstract == "") = false := by
            simp [h]
          simp [this]
    rw [List.foldl_cons, ih _ (by rw [hstep]; exact h), hstep]

lemma truthyPages_cons_none (rest : List (Option String)) :
    truthyPages (none :: rest) = truthyPages rest := by
  simp [truthyPages]

lemma truthyPages_cons_empty (rest : List (Option String)) :
    truthyPages (some "" :: rest) = truthyPages rest := by
  simp [truthyPages]

lemma truthyPages_cons (t : String) (rest : List (Option String)) (h : t ≠ "") :
    truthyPages (some t :: rest) = t :: truthyPages rest := by
  simp [truthyPages, h]

lemma abstractFirstMatch_cons_none (rest : List (Option String)) :
    abstractFirstMatch (none :: rest) = abstractFirstMatch rest := by
  unfold abstractFirstMatch
  rw [truthyPages_cons_none]

lemma abstractFirstMatch_cons_empty (rest : List (Option String)) :
    abstractFirstMatch (some "" :: rest) = abstractFirstMatch rest := by
  unfold abstractFirstMatch
  rw [truthyPages_cons_empty]

lemma abstractFirstMatch_cons_match (t : String) (rest : List (Option String))
    (h : t ≠ "") (hm : containsLower t "abstract" = true) :
    abstractFirstMatch (some t :: rest) = take500 t := by
  unfold abstractFirstMatch
  rw [truthyPages_cons t rest h]
  simp [List.find?, hm]

lemma abstractFirstMatch_cons_nomatch (t : String) (rest : List (Option String))
    (h : t ≠ "") (hm : containsLower t "abstract" = false) :
    abstractFirstMatch (some t :: rest) = abstractFirstMatch rest := by
  unfold abstractFirstMatch
  rw [truthyPages_cons t rest h]
  simp [List.find?, hm]

lemma plumberFold_abstract_general (pages : List (Option String))
    (acc : String × PlumberSections) (h : acc.2.abstract = "") :
    (pages.foldl plumberStep acc).2.abstract = abstractFirstMatch pages := by
  induction pages generalizing acc with
  | nil => simpa [abstractFirstMatch, truthyPages] using h
  | cons p rest ih =>
    cases p with
    | none =>
      rw [List.foldl_cons]
      show (rest.foldl plumberStep acc).2.abstract = _
      rw [ih acc h, abstractFirstMatch_cons_none]
    | some t =>
      by_cases ht : t = ""
      · subst ht
        rw [List.foldl_cons]
        have hstep : plumberStep acc (some "") = acc := by simp [plumberStep]
        rw [hstep, ih acc h, abstractFirstMatch_cons_empty]
      · have hbeq : (t == "") = false := by simp [ht]
        rw [List.foldl_cons]
        simp only [plumberStep, hbeq, Bool.false_eq_true, if_neg, ite_false]
        have habs : (updateSections acc.2 t).abstract =
            if containsLower t "abstract" then take500 t else "" := by
          rw [updateSections_abstract]
          have : (acc.2.abstract == "") = true := by simp [h]
          rw [this]
          simp [h]
        by_cases hm : containsLower t "abstract" = true
        · have hne : (updateSections acc.2 t).abstract = take500 t := by
            rw [habs, if_pos hm]
          rw [plumberFold_abstract_preserved rest _ (by
            show (updateSections acc.2 t).abstract ≠ ""
            rw [hne]; exact take500_ne_empty t ht)]
          rw [hne, abstractFirstMatch_cons_match t rest ht hm]
        · have hm' : containsLower t "abstract" = false := by
            cases hx : containsLower t "abstract"
            · rfl
            · exact absurd hx hm
          have hz : (updateSections acc.2 t).abstract = "" := by
            rw [habs, hm']; rfl
          rw [ih _ hz, abstractFirstMatch_cons_nomatch t rest ht hm']

lemma updateSections_bounded (s : PlumberSections) (t : String)
    (h : sectionsBounded s) : sectionsBounded (updateSections s t) := by
  obtain ⟨h1, h2, h3, h4, h5, h6, h7⟩ := h
  unfold updateSections
  split_ifs <;> exact ⟨by first | assumption | exact take500_length t,
    by first | assumption | exact take500_length t,
    by first | assumption | exact take500_length t,
    by first | assumption | exact take500_length t,
    by first | assumption | exact take500_length t,
    by first | assumption | exact take500_length t,
    by first | assumption | exact take500_length t⟩

lemma plumberFold_bounded (pages : List (Option String))
    (acc : String × PlumberSections) (h : sectionsBounded acc.2) :
    sectionsBounded (pages.foldl plumberStep acc).2 := by
  induction pages generalizing acc with
  | nil => exact h
  | cons p rest ih =>
    rw [List.foldl_cons]
    apply ih
    cases p with
    | none => exact h
    | some t =>
      simp only [plumberStep]
      by_cases ht : t == ""
      · simp [ht, h]
      · simp only [ht, Bool.false_eq_true, if_neg, ite_false]
        exact updateSections_bounded acc.2 t h

lemma emptySections_bounded : sectionsBounded emptySections := by
  refine ⟨?_, ?_, ?_, ?_, ?_, ?_, ?_⟩ <;> decide

/-- Claim C7 counterexample: the section heuristics are an `elif` chain, so a
page feeds at most one heading.  Page 1 of this document matches the
`introduction` heading (its text contains the word), yet `sections` gets its
`introduction` entry from page 2, not from the first matching page — the
first-match-per-heading reading of the claim is false. -/
theorem plumber_first_match_counterexample :
    containsLower "abstract introduction" "introduction" = true ∧
    List.lookup "introduction"
      (plumberResult [some "abstract introduction", some "introduction"]).sections
      = some "introduction" ∧
    ("introduction" : String) ≠ take500 "abstract introduction" := by decide

/-- Claim C7 (amended): in the pdfplumber path, a page populates at most one
section — the first heading in the fixed branch order (abstract, introduction,
methods, results, discussion, conclusion, references) that matches it and is
still empty — rather than each heading taking its own first matching page;
first-match-per-heading does hold for the highest-priority heading: the
abstract section is exactly the 500-character excerpt of the first truthy page
containing "abstract", every captured section is capped at 500 characters, and
when "Abstract" occurs on a non-empty page 1 the abstract section is
non-empty. -/
theorem plumber_sections_amended (upp : Bool)
    (pypdfPages : Option (List (Option String))) (pages : List (Option String))
    (n : Nat) (r : ExtractResult)
    (h : extract_text_from_pdf true upp (some pages) pypdfPages n = some r) :
    (∀ kv ∈ r.sections, kv.2.length ≤ 500) ∧
    List.lookup "abstract" r.sections = some (abstractFirstMatch pages) ∧
    (∀ t, pages.head? = some (some t) → t ≠ "" → containsLower t "abstract" = true →
      List.lookup "abstract" r.sections ≠ some "") := by
  have hr : r = plumberResult pages := by
    have : some (plumberResult pages) = some r := h
    exact (Option.some.injEq _ _ ▸ this).symm
  subst hr
  have hsec : (plumberResult pages).sections = sectionsToList (plumberFold pages).2 := rfl
  have habs : (plumberFold pages).2.abstract = abstractFirstMatch pages :=
    plumberFold_abstract_general pages ("", emptySections) rfl
  have hlook : List.lookup "abstract" (sectionsToList (plumberFold pages).2)
      = some (plumberFold pages).2.abstract := rfl
  refine ⟨?_, ?_, ?_⟩
  · intro kv hkv
    have hb := plumberFold_bounded pages ("", emptySections) emptySections_bounded
    obtain ⟨h1, h2, h3, h4, h5, h6, h7⟩ := hb
    rw [hsec] at hkv
    simp only [sectionsToList, List.mem_cons, List.not_mem_nil, or_false] at hkv
    rcases hkv with h | h | h | h | h | h | h <;> (subst h; assumption)
  · rw [hsec, hlook, habs]
  · intro t hhead hne hmatch
    rw [hsec, hlook, habs]
    intro hc
    have hafm : abstractFirstMatch pages = "" := Option.some.inj hc
    cases pages with
    | nil => simp at hhead
    | cons p0 rest =>
      have hp0 : p0 = some t := by
        simpa using hhead
      subst hp0
      rw [abstractFirstMatch_cons_match t rest hne hmatch] at hafm
      exact take500_ne_empty t hne hafm

/-- Claim C7 witness: the amended theorem applied to a one-page document whose
page 1 contains "Abstract"; the hypothesis of the theorem is discharged by
`rfl` and the abstract section is non-empty. -/
theorem plumber_sections_amended_witness :
    extract_text_from_pdf true false (some [some "Abstract We study canine arthritis"]) none 2048
      = some (plumberResult [some "Abstract We study canine arthritis"]) ∧
    List.lookup "abstract" (plumberResult [some "Abstract We study canine arthritis"]).sections
      = some (abstractFirstMatch [some "Abstract We study canine arthritis"]) ∧
    List.lookup "abstract" (plumberResult [some "Abstract We study canine arthritis"]).sections
      ≠ some "" :=
  ⟨rfl,
   (plumber_sections_amended false none [some "Abstract We study canine arthritis"] 2048
     (plumberResult [some "Abstract We study canine arthritis"]) rfl).2.1,
   (plumber_sections_amended false none [some "Abstract We study canine arthritis"] 2048
     (plumberResult [some "Abstract We study canine arthritis"]) rfl).2.2
     "Abstract We study canine arthritis" rfl (by decide) (by decide)⟩

/-! ## Claim C9 -/

lemma buildActive_degraded (e : String × SourceStat) :
    ((buildActive e).api_status = "degraded" ↔ (buildActive e).error_count ≠ 0) := by
  unfold buildActive
  by_cases h : e.2.error_count == 0
  · have h0 : e.2.error_count = 0 := by simpa using h
    simp [h, h0]
  · have h0 : e.2.error_count ≠ 0 := by simpa using h
    simp [h, h0]

lemma mkInactive_degraded (n m : String) :
    ((mkInactive n m).api_status = "degraded" ↔ (mkInactive n m).error_count ≠ 0) := by
  simp [mkInactive]

/-- Claim C9 counterexample: a corpus state with one readable metadata file (2
papers) and one unreadable one (documents whose extraction state is unknown)
still reports every counted document under the single status `processed`, with
`processing`, `failed` and `pending` hard-coded to 0 — the per-status counts do
not partition documents by their actual processing status. -/
theorem stats_single_status_counterexample :
    (get_paper_stats 200
      [(⟨"metadata/pubmed/a.json", 100, 190⟩, ReadResult.ok (some 2) (some 190)),
       (⟨"metadata/doaj/b.json", 50, 190⟩, ReadResult.readError)]).papers_by_status
      = [("processed", 2), ("processing", 0), ("failed", 0), ("pending", 0)] := by decide

/-- Claim C9 (amended): the stats surface does not partition documents by
processing status — for every corpus state `get_paper_stats` reports the whole
total under the single status `processed` and hard-codes the other statuses to
0; degraded sources, however, are genuinely distinguished: a source appears
with `api_status = "degraded"` exactly when its error count is non-zero. -/
theorem paper_stats_amended (now : Int) (objs : List (S3Object × ReadResult)) :
    (get_paper_stats now objs).papers_by_status =
      [("processed", (get_paper_stats now objs).total_papers),
       ("processing", 0), ("failed", 0), ("pending", 0)] ∧
    (∀ s ∈ get_paper_sources objs, (s.api_status = "degraded" ↔ s.error_count ≠ 0)) := by
  refine ⟨rfl, ?_⟩
  intro s hs
  unfold get_paper_sources at hs
  rw [List.mem_append] at hs
  rcases hs with hs | hs
  · obtain ⟨e, -, rfl⟩ := List.mem_map.mp hs
    exact buildActive_degraded e
  · obtain ⟨e, -, he⟩ := List.mem_filterMap.mp hs
    by_cases hc : (((objs.foldl sourcesStep []).map buildActive).map
        (fun s => s.name)).contains e.1
    · rw [if_pos hc] at he
      exact absurd he (by simp)
    · rw [if_neg hc] at he
      obtain rfl := Option.some.inj he
      exact mkInactive_degraded e.1 e.2

/-- Claim C9 witness: the amended theorem applied to a concrete corpus state
with one unreadable `pubmed` metadata file, whose source record is degraded. -/
theorem paper_stats_amended_witness :
    ((buildActive ("pubmed", ⟨0, 5, 5, 1⟩)).api_status = "degraded" ↔
      (buildActive ("pubmed", ⟨0, 5, 5, 1⟩)).error_count ≠ 0) :=
  (paper_stats_amended 0 [(⟨"metadata/pubmed/a.json", 10, 5⟩, ReadResult.readError)]).2
    (buildActive ("pubmed", ⟨0, 5, 5, 1⟩)) (by decide)

/-! ## Claim C2 -/

lemma doaj_crossref_keys_ne (s1 s2 t1 t2 : String) :
    ("raw/doaj/" ++ s1 ++ "_" ++ s2 ++ ".pdf") ≠
      ("raw/crossref/" ++ t1 ++ "_" ++ t2 ++ ".pdf") := by
  intro h
  have h2 := congrArg (fun s : String => s.data[4]?) h
  simp only [String.data_append, List.append_assoc] at h2
  rw [List.getElem?_append, List.getElem?_append] at h2
  simp at h2

/-- Claim C2 counterexample: a DOAJ article and a CrossRef article carrying
the same DOI `10.1/dup` are both downloaded — the metadata emitted by
`download_papers` contains two entries keyed by that DOI (one per source), not
exactly one merged candidate. -/
theorem resolver_no_doi_dedup_counterexample :
    ((download_papers (fun _ => "H") dupHttp [] [] [dupDoajArticle]
        [dupCrossrefArticle] [] []).2.2.countP
      (fun m => m.doi == some "10.1/dup")) = 2 := by decide

/-- Claim C2 (amended): there is no candidate resolver — `download_papers`
processes each source list independently, so a DOI appearing from two
different adapters (here DOAJ and CrossRef, each with one working PDF link)
produces one downloaded entry per source occurrence: exactly two metadata
entries carrying that DOI, stored under two distinct source-prefixed keys. -/
theorem resolver_one_entry_per_source (hashFn : List Nat → String)
    (http : String → HttpResponse) (D u1 u2 ct1 ct2 : String) (c1 c2 : List Nat)
    (hu1 : u1 ≠ "") (he1 : strEndsWith u1 ".pdf" = true)
    (h1 : http u1 = ⟨200, ct1, c1, false⟩)
    (hu2 : u2 ≠ "") (h2 : http u2 = ⟨200, ct2, c2, false⟩) :
    (download_papers hashFn http [] [] [⟨[("fulltext", u1)], some [some D]⟩]
        [⟨[("application/pdf", some u2)], some D⟩] [] []).2.2
      = [⟨"doaj", some D, none,
           "raw/doaj/" ++ safeDoi D ++ "_" ++ hashFn c1 ++ ".pdf"⟩,
         ⟨"crossref", some D, none,
           "raw/crossref/" ++ safeDoi D ++ "_" ++ hashFn c2 ++ ".pdf"⟩] ∧
    ((download_papers hashFn http [] [] [⟨[("fulltext", u1)], some [some D]⟩]
        [⟨[("application/pdf", some u2)], some D⟩] [] []).2.2.countP
      (fun m => m.doi == some D)) = 2 := by
  have hb1 : (u1 == "") = false := by simp [hu1]
  have hb2 : (u2 == "") = false := by simp [hu2]
  have e2 : doajStep hashFn http (([] : Store), 0, ([] : List DownloadMeta))
      ⟨[("fulltext", u1)], some [some D]⟩
      = ([("raw/doaj/" ++ safeDoi D ++ "_" ++ hashFn c1 ++ ".pdf", c1)], 1,
         [⟨"doaj", some D, none,
            "raw/doaj/" ++ safeDoi D ++ "_" ++ hashFn c1 ++ ".pdf"⟩]) := by
    simp [doajStep, doajLinkScan, hb1, hu1, he1, h1, doajFinish, load_bytes_noreplace,
      storeHasKey, List.lookup]
  have hk : (("raw/crossref/" ++ safeDoi D ++ "_" ++ hashFn c2 ++ ".pdf" ==
      "raw/doaj/" ++ safeDoi D ++ "_" ++ hashFn c1 ++ ".pdf") = false) := by
    have hne := doaj_crossref_keys_ne (safeDoi D) (hashFn c1) (safeDoi D) (hashFn c2)
    simp only [beq_eq_false_iff_ne, ne_eq]
    exact fun hh => hne hh.symm
  have e3 : crossrefStep hashFn http
      ([("raw/doaj/" ++ safeDoi D ++ "_" ++ hashFn c1 ++ ".pdf", c1)], 1,
         [⟨"doaj", some D, none,
            "raw/doaj/" ++ safeDoi D ++ "_" ++ hashFn c1 ++ ".pdf"⟩])
      ⟨[("application/pdf", some u2)], some D⟩
      = ([("raw/crossref/" ++ safeDoi D ++ "_" ++ hashFn c2 ++ ".pdf", c2),
          ("raw/doaj/" ++ safeDoi D ++ "_" ++ hashFn c1 ++ ".pdf", c1)], 2,
         [⟨"doaj", some D, none,
            "raw/doaj/" ++ safeDoi D ++ "_" ++ hashFn c1 ++ ".pdf"⟩,
          ⟨"crossref", some D, none,
            "raw/crossref/" ++ safeDoi D ++ "_" ++ hashFn c2 ++ ".pdf"⟩]) := by
    simp [crossrefStep, crossrefLinkScan, hb2, hu2, h2, load_bytes_noreplace,
      storeHasKey, List.lookup, hk]
  have hmain : (download_papers hashFn http [] []
      [⟨[("fulltext", u1)], some [some D]⟩]
      [⟨[("application/pdf", some u2)], some D⟩] [] []).2.2
      = [⟨"doaj", some D, none,
           "raw/doaj/" ++ safeDoi D ++ "_" ++ hashFn c1 ++ ".pdf"⟩,
         ⟨"crossref", some D, none,
           "raw/crossref/" ++ safeDoi D ++ "_" ++ hashFn c2 ++ ".pdf"⟩] := by
    show (crossrefStep hashFn http
      (doajStep hashFn http (([] : Store), 0, ([] : List DownloadMeta))
        ⟨[("fulltext", u1)], some [some D]⟩)
      ⟨[("application/pdf", some u2)], some D⟩).2.2 = _
    rw [e2, e3]
  refine ⟨hmain, ?_⟩
  rw [hmain]
  simp [List.countP_cons]

/-- Claim C2 witness: the amended theorem applied to the concrete fixtures;
both hypotheses hold and the metadata carries the duplicated DOI twice. -/
theorem resolver_one_entry_per_source_witness :
    strEndsWith "http://a.example/p.pdf" ".pdf" = true ∧
    dupHttp "http://a.example/p.pdf" = ⟨200, "application/pdf", [1], false⟩ ∧
    ((download_papers (fun _ => "H") dupHttp [] []
        [⟨[("fulltext", "http://a.example/p.pdf")], some [some "10.1/dup"]⟩]
        [⟨[("application/pdf", some "http://b.example/q.pdf")], some "10.1/dup"⟩]
        [] []).2.2.countP (fun m => m.doi == some "10.1/dup")) = 2 :=
  ⟨by decide, by decide,
   (resolver_one_entry_per_source (fun _ => "H") dupHttp "10.1/dup"
     "http://a.example/p.pdf" "http://b.example/q.pdf" "application/pdf"
     "application/pdf" [1] [2] (by decide) (by decide) (by decide) (by decide)
     (by decide)).2⟩

end Harness



